import Mathlib

/-!
# Verification of the sitecrawler crawl scheduler, store and extractor

This development shallowly embeds the core of the `sitecrawler` repository
(`aiocrawler.py`, `sitecrawler.py`, `lmdb_collection.py`) in Lean and proves
or refutes the specified properties.

Modelling conventions:
* Python machine floats used for times and TTLs are modelled as rationals
  (`ℚ`); only orderings and exact arithmetic on them matter here.
* Python sets of strings are modelled as duplicate-free `List String`
  (insertion is guarded by a membership check in the source, so list length
  agrees with set cardinality).
* External libraries (aiohttp, yarl, selectolax, re, tldextract, xxhash,
  uuid, urllib) are modelled as oracle parameters: the repository code under
  verification only branches on their results.
-/

deriving instance DecidableEq for Except

namespace AioCrawler

/-- The scheduler configuration: `max_depth` and `max_pages` from
`AsyncCrawler.__init__` (both arbitrary Python ints; `max_pages = -1` means
unlimited). -/
structure Config where
  maxDepth : Int
  maxPages : Int
  deriving Repr, DecidableEq

/-- `TaskQueueMessage` from `aiocrawler.py`. -/
structure TaskQueueMessage where
  source_url : String
  url : String
  depth : Int
  retry_count : Int
  deriving Repr, DecidableEq

/-- Scheduler state observed by one worker iteration: the shared seen set
`self.crawled_urls` plus a history of the URLs for which `crawl_page` was
invoked (each entry is one call of the fetch path). -/
structure SchedState where
  crawled_urls : List String
  fetched : List String
  deriving Repr, DecidableEq

/-- Initial scheduler state: `self.crawled_urls = set()` and no fetch issued. -/
def initState : SchedState := { crawled_urls := [], fetched := [] }

/-- One iteration of `AsyncCrawler.worker` (aiocrawler.py lines 179-195) up to
and including the call of `crawl_page`.  The three guards and the insertion
into `crawled_urls` contain no `await`, so under asyncio's cooperative
scheduling they execute atomically; the fetch that follows the insertion is
recorded in `fetched`.  `retry_task` is the only code that removes a URL from
`crawled_urls` and its call sites are commented out in the source, so it does
not appear as a step. -/
def workerStep (cfg : Config) (st : SchedState) (task : TaskQueueMessage) : SchedState :=
  if task.depth ≥ cfg.maxDepth ∨ task.url ∈ st.crawled_urls then
    st
  else if cfg.maxPages > 0 ∧ (st.crawled_urls.length : Int) > cfg.maxPages then
    st
  else
    { crawled_urls := task.url :: st.crawled_urls,
      fetched := st.fetched ++ [task.url] }

/-- Run a worker over a list of dequeued messages (any interleaving of the
cooperative workers is some such list, since each iteration's guarded section
is atomic). -/
def runWorker (cfg : Config) (st : SchedState) : List TaskQueueMessage → SchedState
  | [] => st
  | t :: ts => runWorker cfg (workerStep cfg st t) ts

/-- The single-fetch invariant: every URL is fetched at most once and every
fetched URL has been inserted into the seen set. -/
def FetchInv (st : SchedState) : Prop :=
  (∀ u : String, st.fetched.count u ≤ 1) ∧
  (∀ u : String, u ∈ st.fetched → u ∈ st.crawled_urls)

theorem workerStep_fetchInv (cfg : Config) (st : SchedState) (t : TaskQueueMessage)
    (h : FetchInv st) : FetchInv (workerStep cfg st t) := by
  obtain ⟨h1, h2⟩ := h
  unfold workerStep
  split
  · exact ⟨h1, h2⟩
  · next hguard =>
    split
    · exact ⟨h1, h2⟩
    · push_neg at hguard
      obtain ⟨-, hnotseen⟩ := hguard
      constructor
      · intro u
        simp only [List.count_append]
        by_cases hu : u = t.url
        · have hnotf : u ∉ st.fetched := fun hf => (hu ▸ hnotseen) (h2 u hf)
          have hzero : st.fetched.count u = 0 := List.count_eq_zero.mpr hnotf
          rw [← hu]
          simp [hzero, List.count_cons]
        · have : List.count u [t.url] = 0 := by
            apply List.count_eq_zero.mpr
            simp [hu]
          simpa [this] using h1 u
      · intro u hu
        rcases List.mem_append.mp hu with hl | hr
        · exact List.mem_cons_of_mem _ (h2 u hl)
        · simp only [List.mem_singleton] at hr
          subst hr
          exact List.mem_cons_self _ _

theorem runWorker_fetchInv (cfg : Config) (msgs : List TaskQueueMessage) :
    ∀ st : SchedState, FetchInv st → FetchInv (runWorker cfg st msgs) := by
  induction msgs with
  | nil => intro st h; exact h
  | cons t ts ih =>
    intro st h
    exact ih _ (workerStep_fetchInv cfg st t h)

/-- C1: during one crawl (any sequence of dequeued messages, retry path
excluded since its call sites are commented out), the scheduler invokes the
fetch path at most once per URL: the worker inserts the URL into
`crawled_urls` after the depth/seen/max-pages guards and before fetching, so
any later dequeue of the same URL is discarded at the seen check. -/
theorem c1_at_most_one_fetch_per_url (cfg : Config) (msgs : List TaskQueueMessage)
    (u : String) : ((runWorker cfg initState msgs).fetched.count u) ≤ 1 := by
  have hinit : FetchInv initState := by
    constructor
    · intro v; simp [initState]
    · intro v hv; simp [initState] at hv
  exact (runWorker_fetchInv cfg msgs initState hinit).1 u

/-- The page-count invariant used for C6. -/
def SeenBound (cfg : Config) (st : SchedState) : Prop :=
  (st.crawled_urls.length : Int) ≤ cfg.maxPages + 1

theorem workerStep_seenBound (cfg : Config) (st : SchedState) (t : TaskQueueMessage)
    (hpos : cfg.maxPages > 0) (h : SeenBound cfg st) :
    SeenBound cfg (workerStep cfg st t) := by
  unfold workerStep
  split
  · exact h
  · split
    · exact h
    · next hguard =>
      push_neg at hguard
      have hle : (st.crawled_urls.length : Int) ≤ cfg.maxPages := hguard hpos
      simp only [SeenBound, List.length_cons]
      push_cast
      omega

theorem runWorker_seenBound (cfg : Config) (msgs : List TaskQueueMessage)
    (hpos : cfg.maxPages > 0) :
    ∀ st : SchedState, SeenBound cfg st → SeenBound cfg (runWorker cfg st msgs) := by
  induction msgs with
  | nil => intro st h; exact h
  | cons t ts ih =>
    intro st h
    exact ih _ (workerStep_seenBound cfg st t hpos h)

/-- C6: whenever `max_pages > 0`, the size of the seen set `crawled_urls`
never exceeds `max_pages + 1` in any reachable state: a worker only inserts
after checking `len(crawled_urls) > max_pages`, so each insertion starts from
a set of size at most `max_pages`. -/
theorem c6_seen_le_max_pages_succ (cfg : Config) (msgs : List TaskQueueMessage)
    (hpos : cfg.maxPages > 0) :
    ((runWorker cfg initState msgs).crawled_urls.length : Int) ≤ cfg.maxPages + 1 := by
  have hinit : SeenBound cfg initState := by
    simp only [SeenBound, initState, List.length_nil]
    omega
  exact runWorker_seenBound cfg msgs hpos initState hinit

/-- A concrete three-message run used as the witness for C6. -/
def witnessCfg : Config := { maxDepth := 5, maxPages := 1 }

def witnessMsgs : List TaskQueueMessage :=
  [⟨"s", "a", 0, 0⟩, ⟨"s", "b", 0, 0⟩, ⟨"s", "c", 0, 0⟩]

theorem c6_witness :
    witnessCfg.maxPages > 0 ∧
    ((runWorker witnessCfg initState witnessMsgs).crawled_urls.length : Int) ≤
      witnessCfg.maxPages + 1 :=
  ⟨by decide, c6_seen_le_max_pages_succ witnessCfg witnessMsgs (by decide)⟩

/-- A Python value as it can appear around the seen-set membership test in
`AsyncCrawler._make_request`: either a `str` or a `yarl.URL` object (the type
of `response.url`), identified by its `human_repr()` string form. -/
inductive PyObj
  | pyStr (s : String)
  | pyUrl (humanRepr : String)
  deriving Repr, DecidableEq

/-- Python `==` between these values: `str == str` and `URL == URL` compare
contents; `yarl.URL.__eq__` returns `NotImplemented` on a `str` argument, so a
cross-type comparison falls back to identity and is `False` (a `URL` object is
never the same object as a `str`). -/
def pyEq : PyObj → PyObj → Bool
  | .pyStr a, .pyStr b => a == b
  | .pyUrl a, .pyUrl b => a == b
  | _, _ => false

/-- Python `x in s` for a set `s`: true iff some element compares equal. -/
def pyMem (x : PyObj) (s : List PyObj) : Bool :=
  s.any (pyEq x)

/-- The response to a single GET, abstracting aiohttp: `response.url` (a
`yarl.URL`, carried as its `human_repr()` string), `response.content_type`,
the text/byte bodies and the response headers. -/
structure Response where
  urlHumanRepr : String
  content_type : String
  textBody : String
  binBody : List Nat
  headers : List (String × String)
  deriving Repr, DecidableEq

/-- The body returned by the fetcher: a `str` for HTML, `bytes` for binaries. -/
inductive Body
  | bstr (s : String)
  | bbytes (b : List Nat)
  deriving Repr, DecidableEq

/-- Outcome of `AsyncCrawler._make_request` after the response arrived. -/
inductive FetchResult
  | ok (content_type : String) (actual_url : String) (body : Body)
      (headers : List (String × String))
  | alreadyFetchedRaised
  | invalidContentTypeRaised
  deriving Repr, DecidableEq

/-- `AsyncCrawler.html_content_types`. -/
def html_content_types : List String :=
  ["text/html", "text/xhtml", "application/xhtml+xml", "application/xhtml",
   "application/html"]

/-- `AsyncCrawler.binary_content_types`. -/
def binary_content_types : List String :=
  ["application/pdf",
   "application/vnd.openxmlformats-officedocument.presentationml.presentation",
   "application/vnd.openxmlformats-officedocument.wordprocessingml.document",
   "application/epub+zip"]

/-- `AsyncCrawler._make_request` (aiocrawler.py lines 97-120), from the point
where the response is available.  `crawled_urls` is the shared seen set; the
worker only ever inserts `str` values into it.  Note the source tests
`response.url in self.crawled_urls` with the `yarl.URL` object itself, not
its `human_repr()` string. -/
def make_request (crawled_urls : List PyObj) (url : String) (response : Response) :
    FetchResult :=
  let actual_url := response.urlHumanRepr
  if actual_url ≠ url ∧ pyMem (PyObj.pyUrl response.urlHumanRepr) crawled_urls then
    .alreadyFetchedRaised
  else if html_content_types.contains response.content_type then
    .ok "text/html" actual_url (.bstr response.textBody) response.headers
  else if binary_content_types.contains response.content_type then
    .ok response.content_type actual_url (.bbytes response.binBody) response.headers
  else
    .invalidContentTypeRaised

/-- A redirected response whose final URL is already in the seen set (as the
string the worker inserted). -/
def c2Response : Response :=
  { urlHumanRepr := "http://b/", content_type := "text/html",
    textBody := "<p>hi</p>", binBody := [], headers := [] }

/-- C2 (code bug): requesting `http://a/` gets redirected to `http://b/`,
whose string form is a member of `crawled_urls = {"http://b/"}`; the spec says
`_make_request` raises `AlreadyFetchedError`, but the code compares the
`yarl.URL` object `response.url` against a set of `str`s, which is always
false, so the response is returned normally. -/
theorem c2_redirect_already_fetched_not_raised :
    ("http://b/" ∈ ["http://b/"] ∧ "http://b/" ≠ "http://a/") ∧
    make_request [PyObj.pyStr "http://b/"] "http://a/" c2Response =
      FetchResult.ok "text/html" "http://b/" (Body.bstr "<p>hi</p>") [] := by
  constructor
  · exact ⟨by decide, by decide⟩
  · decide

end AioCrawler

namespace LmdbStore

/-- The JSON-serialisable Python values this collection stores inside its
dict records: strings, floats (as rationals), ints, `None`, and the lists of
strings produced by extraction. -/
inductive PyVal
  | pstr (s : String)
  | pfloat (q : ℚ)
  | pint (n : Int)
  | pnone
  | plist (elems : List String)
  deriving Repr, DecidableEq

/-- A Python dict with string keys (the `**kwargs` records of the
collection), as an insertion-ordered association list. -/
abbrev Record := List (String × PyVal)

/-- Python dict lookup, `d.get(k)` (and `d[k]` when the key is present). -/
def assocGet {β : Type} : List (String × β) → String → Option β
  | [], _ => none
  | (k0, v0) :: rest, k => if k0 = k then some v0 else assocGet rest k

/-- Python dict assignment `d[k] = v`: replaces the value in place, or
appends the new key at the end. -/
def assocSet {β : Type} : List (String × β) → String → β → List (String × β)
  | [], k, v => [(k, v)]
  | (k0, v0) :: rest, k, v =>
    if k0 = k then (k, v) :: rest else (k0, v0) :: assocSet rest k v

/-- Python `s.endswith(post)`. -/
def pyEndsWith (s post : String) : Bool :=
  post.data.isSuffixOf s.data

/-- `_binary_suffix` from `lmdb_collection.py`. -/
def _binary_suffix : String := "^bytes"

/-- The bytes stored at a key by `JsonLmdb.__setitem__`: either the UTF-8
JSON rendering of a dict (produced by `_pre_value`, i.e. `json.dumps`; the
dict is carried abstractly as its content, `json.loads` being the inverse on
these values per the stdlib contract) or raw bytes stored verbatim under a
binary-suffix key. -/
inductive Wire
  | jsonBytes (r : Record)
  | rawBytes (b : List Nat)
  deriving Repr, DecidableEq

/-- A Python value passed to or returned by `__setitem__`/`__getitem__`: the
collection stores dict records and byte blobs. -/
inductive DbValue
  | vdict (r : Record)
  | vbytes (b : List Nat)
  deriving Repr, DecidableEq

/-- The lmdb environment contents: a key/value map. -/
abbrev Db := List (String × Wire)

def dbGet (db : Db) (k : String) : Option Wire := assocGet db k

def dbPut (db : Db) (k : String) (w : Wire) : Db := assocSet db k w

/-- `JsonLmdb.__setitem__`: a key without the binary suffix has its value
serialised with `json.dumps` (which raises `TypeError` on `bytes`); a key
with the suffix is stored verbatim, and `lmdb`'s `txn.put` itself raises
`TypeError` unless the value is bytes-like. -/
def setItem (key : String) (value : DbValue) (db : Db) : Except String Db :=
  if ¬ pyEndsWith key _binary_suffix then
    match value with
    | .vdict r => .ok (dbPut db key (.jsonBytes r))
    | .vbytes _ => .error "TypeError"
  else
    match value with
    | .vbytes b => .ok (dbPut db key (.rawBytes b))
    | .vdict _ => .error "TypeError"

/-- `JsonLmdb.__getitem__`: a missing key raises `KeyError`; a key without
the binary suffix is deserialised with `json.loads` (which fails on the raw
non-JSON blobs this collection stores — a combination `__setitem__` never
produces); a suffix key returns the stored bytes verbatim (finding JSON text
there is likewise never produced by `__setitem__`). -/
def getItem (key : String) (db : Db) : Except String DbValue :=
  match dbGet db key with
  | none => .error "KeyError"
  | some w =>
    if ¬ pyEndsWith key _binary_suffix then
      match w with
      | .jsonBytes r => .ok (.vdict r)
      | .rawBytes _ => .error "JSONDecodeError"
    else
      match w with
      | .rawBytes b => .ok (.vbytes b)
      | .jsonBytes _ => .error "JSONBytesUnderBinaryKey"

/-- `key in collection` (`LmdbmDocumentCollection.__contains__`). -/
def containsKey (key : String) (db : Db) : Bool :=
  (dbGet db key).isSome

/-- `LmdbmDocumentCollection.add`. -/
def add (key : String) (content : Option String) (kwargs : Record) (db : Db) :
    Except String Db :=
  let kwargs := match content with
    | some c => assocSet kwargs "_content" (.pstr c)
    | none => kwargs
  setItem key (.vdict kwargs) db

/-- `LmdbmDocumentCollection.add_html`. -/
def add_html (key : String) (content : String) (kwargs : Record) (db : Db) :
    Except String Db :=
  let kwargs := assocSet kwargs "_content" (.pstr content)
  let kwargs := assocSet kwargs "content_type" (.pstr "text/html")
  setItem key (.vdict kwargs) db

/-- `LmdbmDocumentCollection.add_binary`: writes the record at `key`, then
the blob at `key + _binary_suffix`. -/
def add_binary (key : String) (content : List Nat) (content_type : String)
    (kwargs : Record) (db : Db) : Except String Db :=
  let kwargs := assocSet kwargs "_content" (.pstr "N/A")
  let kwargs := assocSet kwargs "content_type" (.pstr content_type)
  match setItem key (.vdict kwargs) db with
  | .error e => .error e
  | .ok db2 => setItem (key ++ _binary_suffix) (.vbytes content) db2

/-- `LmdbmDocumentCollection.get_binary`. -/
def get_binary (key : String) (db : Db) : Except String DbValue :=
  getItem (key ++ _binary_suffix) db

/-- `LmdbmDocumentCollection.is_binary_key`. -/
def is_binary_key (key : String) : Bool :=
  pyEndsWith key "^bytes"

theorem assocGet_assocSet_self {β : Type} (l : List (String × β)) (k : String) (v : β) :
    assocGet (assocSet l k v) k = some v := by
  induction l with
  | nil => simp [assocGet, assocSet]
  | cons p rest ih =>
    obtain ⟨k0, v0⟩ := p
    by_cases h : k0 = k <;> simp [assocGet, assocSet, h, ih]

theorem assocGet_assocSet_ne {β : Type} (l : List (String × β)) (k k2 : String) (v : β)
    (h : k2 ≠ k) : assocGet (assocSet l k v) k2 = assocGet l k2 := by
  induction l with
  | nil => simp [assocGet, assocSet, Ne.symm h]
  | cons p rest ih =>
    obtain ⟨k0, v0⟩ := p
    by_cases h0 : k0 = k
    · subst h0
      simp [assocGet, assocSet, Ne.symm h]
    · by_cases h2 : k0 = k2 <;> simp [assocGet, assocSet, h0, h2, ih, h, Ne.symm h]

theorem dbGet_dbPut_self (db : Db) (k : String) (w : Wire) :
    dbGet (dbPut db k w) k = some w :=
  assocGet_assocSet_self db k w

theorem dbGet_dbPut_ne (db : Db) (k k2 : String) (w : Wire) (h : k2 ≠ k) :
    dbGet (dbPut db k w) k2 = dbGet db k2 :=
  assocGet_assocSet_ne db k k2 w h

theorem pyEndsWith_append (s t : String) : pyEndsWith (s ++ t) t = true := by
  simp [pyEndsWith]

theorem strAppend_cancel_right {a b t : String} (h : a ++ t = b ++ t) : a = b := by
  have hd : a.data ++ t.data = b.data ++ t.data := by
    rw [← String.data_append, ← String.data_append, h]
  have hab : a.data = b.data := List.append_cancel_right hd
  cases a
  cases b
  exact congrArg String.mk hab

/-- C8 (amended): for every key that does not end in the binary suffix
`^bytes`, and every HTML body and extra fields, `add_html` succeeds and
reading the record back with `__getitem__` yields a dict whose `_content` is
the stored body and whose `content_type` is `"text/html"`. -/
theorem c8_put_html_roundtrip (key content : String) (kwargs : Record) (db : Db)
    (h : pyEndsWith key _binary_suffix = false) :
    ∃ db2 : Db, add_html key content kwargs db = .ok db2 ∧
      ∃ r : Record, getItem key db2 = .ok (.vdict r) ∧
        assocGet r "_content" = some (.pstr content) ∧
        assocGet r "content_type" = some (.pstr "text/html") := by
  refine ⟨dbPut db key (.jsonBytes (assocSet (assocSet kwargs "_content" (.pstr content))
    "content_type" (.pstr "text/html"))), ?_, ?_⟩
  · simp [add_html, setItem, h]
  · refine ⟨assocSet (assocSet kwargs "_content" (.pstr content))
      "content_type" (.pstr "text/html"), ?_, ?_, ?_⟩
    · simp [getItem, dbGet_dbPut_self, h]
    · rw [assocGet_assocSet_ne _ _ _ _ (by decide)]
      exact assocGet_assocSet_self _ _ _
    · exact assocGet_assocSet_self _ _ _

/-- C8 witness: a concrete round-trip through the store. -/
theorem c8_put_html_roundtrip_witness :
    pyEndsWith "http://e/a" _binary_suffix = false ∧
    ∃ db2 : Db, add_html "http://e/a" "<p>hi</p>" [] [] = .ok db2 ∧
      ∃ r : Record, getItem "http://e/a" db2 = .ok (.vdict r) ∧
        assocGet r "_content" = some (.pstr "<p>hi</p>") ∧
        assocGet r "content_type" = some (.pstr "text/html") :=
  ⟨by decide, c8_put_html_roundtrip "http://e/a" "<p>hi</p>" [] [] (by decide)⟩

/-- C8 counterexample: for a key that ends in the binary suffix, storing an
HTML body fails with `TypeError` (the suffix branch of `__setitem__` hands
the dict straight to `lmdb`, which requires bytes), so no record can be read
back: the round-trip does not hold for every key. -/
theorem c8_counterexample_binary_suffix_key :
    add_html "k^bytes" "<p>x</p>" [] [] = .error "TypeError" := by rfl

end LmdbStore

namespace SC

open LmdbStore

/-- Python truthiness of an optional string (`if s:`): false for `None` and
for the empty string. -/
def pyTruthy : Option String → Bool
  | none => false
  | some s => !(s == "")

/-- An optional string as stored in a record field (`None` becomes JSON
null). -/
def pyOfOptStr : Option String → PyVal
  | none => .pnone
  | some s => .pstr s

/-- The keyword fields `SiteCrawler.output` passes to `add_html`/`add_binary`
for a fetched result, in keyword order: `type="content"`, `parsed_hash=""`,
`crawled=time.time()`, `server_last_modified=response_headers.get("Last-Modified")`. -/
def outputFields (now : ℚ) (slm : Option String) : Record :=
  [("type", .pstr "content"), ("parsed_hash", .pstr ""), ("crawled", .pfloat now),
   ("server_last_modified", pyOfOptStr slm)]

/-- The store writes the crawler issues for fetch results: a successful HTML
page (`output` → `add_html`), a successful binary (`output` → `add_binary`),
a recorded redirect (`save_redirect` → `add`), and an error
(`log_error_url` → `add`). -/
inductive CrawlOp
  | writeHtml (url content : String) (slm : Option String) (now : ℚ)
  | writeBinary (url : String) (content : List Nat) (content_type : String)
      (slm : Option String) (now : ℚ)
  | writeRedirect (url target : String)
  | writeError (url msg : String) (code : PyVal)

/-- Apply one write to the store.  A raising write leaves the store
unmodified: `output` catches the exception, and for the single-put writes the
exception fires before any mutation. -/
def applyOp (db : Db) : CrawlOp → Db
  | .writeHtml url content slm now =>
    match add_html url content (outputFields now slm) db with
    | .ok db2 => db2
    | .error _ => db
  | .writeBinary url content ct slm now =>
    match add_binary url content ct (outputFields now slm) db with
    | .ok db2 => db2
    | .error _ => db
  | .writeRedirect url target =>
    match add url none
        [("type", .pstr "redirect"), ("redirected_url", .pstr target)] db with
    | .ok db2 => db2
    | .error _ => db
  | .writeError url msg code =>
    match add url (some msg) [("type", .pstr "error"), ("error_code", code)] db with
    | .ok db2 => db2
    | .error _ => db

def applyOps (db : Db) (ops : List CrawlOp) : Db :=
  ops.foldl applyOp db

/-- JSON records live only at keys without the binary suffix (`__setitem__`
serialises dicts exactly on such keys). -/
def RecordKeysInv (db : Db) : Prop :=
  ∀ k r, dbGet db k = some (.jsonBytes r) → pyEndsWith k _binary_suffix = false

/-- The blob-sibling invariant that actually holds: every blob key has a
sibling record of some type. -/
def BlobSiblingInv (db : Db) : Prop :=
  ∀ k b, dbGet db (k ++ _binary_suffix) = some (.rawBytes b) →
    ∃ r : Record, dbGet db k = some (.jsonBytes r)

theorem setItem_vdict_ok (key : String) (r : Record) (db db2 : Db)
    (h : setItem key (.vdict r) db = .ok db2) :
    pyEndsWith key _binary_suffix = false ∧ db2 = dbPut db key (.jsonBytes r) := by
  by_cases hk : pyEndsWith key _binary_suffix = true
  · simp [setItem, hk] at h
  · rw [Bool.not_eq_true] at hk
    simp [setItem, hk] at h
    exact ⟨hk, h.symm⟩

theorem recordPut_inv (db : Db) (key : String) (r : Record)
    (hk : pyEndsWith key _binary_suffix = false)
    (h1 : RecordKeysInv db) (h2 : BlobSiblingInv db) :
    RecordKeysInv (dbPut db key (.jsonBytes r)) ∧
    BlobSiblingInv (dbPut db key (.jsonBytes r)) := by
  constructor
  · intro k rr hget
    by_cases hkk : k = key
    · subst hkk; exact hk
    · rw [dbGet_dbPut_ne _ _ _ _ hkk] at hget
      exact h1 k rr hget
  · intro k b hget
    have hne : k ++ _binary_suffix ≠ key := by
      intro he
      have hap := pyEndsWith_append k _binary_suffix
      rw [he, hk] at hap
      exact Bool.false_ne_true hap
    rw [dbGet_dbPut_ne _ _ _ _ hne] at hget
    obtain ⟨r0, hr0⟩ := h2 k b hget
    by_cases hkk : k = key
    · subst hkk
      exact ⟨r, dbGet_dbPut_self _ _ _⟩
    · exact ⟨r0, by rw [dbGet_dbPut_ne _ _ _ _ hkk]; exact hr0⟩

theorem add_binary_ok (url : String) (content : List Nat) (ct : String)
    (kwargs : Record) (db db2 : Db)
    (h : add_binary url content ct kwargs db = .ok db2) :
    pyEndsWith url _binary_suffix = false ∧
    db2 = dbPut (dbPut db url (.jsonBytes (assocSet (assocSet kwargs "_content"
        (.pstr "N/A")) "content_type" (.pstr ct))))
      (url ++ _binary_suffix) (.rawBytes content) := by
  by_cases hk : pyEndsWith url _binary_suffix = true
  · simp [add_binary, setItem, hk] at h
  · rw [Bool.not_eq_true] at hk
    simp [add_binary, setItem, hk, pyEndsWith_append] at h
    exact ⟨hk, h.symm⟩

theorem binaryPut_inv (db : Db) (url : String) (rec : Record) (content : List Nat)
    (hk : pyEndsWith url _binary_suffix = false)
    (h1 : RecordKeysInv db) (h2 : BlobSiblingInv db) :
    RecordKeysInv (dbPut (dbPut db url (.jsonBytes rec))
        (url ++ _binary_suffix) (.rawBytes content)) ∧
    BlobSiblingInv (dbPut (dbPut db url (.jsonBytes rec))
        (url ++ _binary_suffix) (.rawBytes content)) := by
  obtain ⟨hm1, hm2⟩ := recordPut_inv db url rec hk h1 h2
  have hurlne : url ≠ url ++ _binary_suffix := by
    intro he
    have hap := pyEndsWith_append url _binary_suffix
    rw [← he, hk] at hap
    exact Bool.false_ne_true hap
  constructor
  · intro k rr hget
    by_cases hkk : k = url ++ _binary_suffix
    · subst hkk
      rw [dbGet_dbPut_self] at hget
      exact absurd hget (by simp)
    · rw [dbGet_dbPut_ne _ _ _ _ hkk] at hget
      exact hm1 k rr hget
  · intro k b hget
    by_cases hc : k ++ _binary_suffix = url ++ _binary_suffix
    · have hku : k = url := strAppend_cancel_right hc
      subst hku
      refine ⟨rec, ?_⟩
      rw [dbGet_dbPut_ne _ _ _ _ hurlne]
      exact dbGet_dbPut_self _ _ _
    · rw [dbGet_dbPut_ne _ _ _ _ hc] at hget
      obtain ⟨r0, hr0⟩ := hm2 k b hget
      have hkne : k ≠ url ++ _binary_suffix := by
        intro he
        have hkf := hm1 k r0 hr0
        have hap := pyEndsWith_append url _binary_suffix
        rw [← he, hkf] at hap
        exact Bool.false_ne_true hap
      exact ⟨r0, by rw [dbGet_dbPut_ne _ _ _ _ hkne]; exact hr0⟩

theorem applyOp_inv (db : Db) (op : CrawlOp)
    (h1 : RecordKeysInv db) (h2 : BlobSiblingInv db) :
    RecordKeysInv (applyOp db op) ∧ BlobSiblingInv (applyOp db op) := by
  cases op with
  | writeHtml url content slm now =>
    simp only [applyOp]
    split
    · next db2 heq =>
      obtain ⟨hk, hdb⟩ := setItem_vdict_ok _ _ _ _ heq
      subst hdb
      exact recordPut_inv _ _ _ hk h1 h2
    · exact ⟨h1, h2⟩
  | writeBinary url content ct slm now =>
    simp only [applyOp]
    split
    · next db2 heq =>
      obtain ⟨hk, hdb⟩ := add_binary_ok _ _ _ _ _ _ heq
      subst hdb
      exact binaryPut_inv _ _ _ _ hk h1 h2
    · exact ⟨h1, h2⟩
  | writeRedirect url target =>
    simp only [applyOp]
    split
    · next db2 heq =>
      obtain ⟨hk, hdb⟩ := setItem_vdict_ok _ _ _ _ heq
      subst hdb
      exact recordPut_inv _ _ _ hk h1 h2
    · exact ⟨h1, h2⟩
  | writeError url msg code =>
    simp only [applyOp]
    split
    · next db2 heq =>
      obtain ⟨hk, hdb⟩ := setItem_vdict_ok _ _ _ _ heq
      subst hdb
      exact recordPut_inv _ _ _ hk h1 h2
    · exact ⟨h1, h2⟩

theorem applyOps_inv (ops : List CrawlOp) :
    ∀ db : Db, RecordKeysInv db → BlobSiblingInv db →
      RecordKeysInv (applyOps db ops) ∧ BlobSiblingInv (applyOps db ops) := by
  induction ops with
  | nil => intro db h1 h2; exact ⟨h1, h2⟩
  | cons op rest ih =>
    intro db h1 h2
    obtain ⟨g1, g2⟩ := applyOp_inv db op h1 h2
    exact ih (applyOp db op) g1 g2

/-- C5 (amended): in every store state reachable by fetch-result writes from
the empty store, every blob key `K^bytes` has a sibling record at `K` — but
that record need not have `type=content` nor a non-HTML `content_type`:
writing a new fetch result replaces the prior record while leaving the blob
in place, so a stale blob can survive the overwrite of its sibling record. -/
theorem c5_blob_has_sibling_record (ops : List CrawlOp) (k : String) (b : List Nat)
    (h : dbGet (applyOps [] ops) (k ++ _binary_suffix) = some (.rawBytes b)) :
    ∃ r : Record, dbGet (applyOps [] ops) k = some (.jsonBytes r) := by
  have h1 : RecordKeysInv ([] : Db) := by intro k r hget; cases hget
  have h2 : BlobSiblingInv ([] : Db) := by intro k b hget; cases hget
  exact (applyOps_inv ops [] h1 h2).2 k b h

/-- The write sequence refuting the claimed invariant: a PDF fetch of `u`
followed by a later fetch of `u` that fails with a server error. -/
def c5Ops : List CrawlOp :=
  [.writeBinary "u" [37] "application/pdf" none 0,
   .writeError "u" "Server error at url: u" (.pint 500)]

/-- The invariant as claimed: every blob's sibling record has `type=content`
and a non-HTML `content_type`, at all times. -/
def ClaimedBlobInv (db : Db) : Prop :=
  ∀ k b, dbGet db (k ++ _binary_suffix) = some (.rawBytes b) →
    ∃ r : Record, dbGet db k = some (.jsonBytes r) ∧
      assocGet r "type" = some (.pstr "content") ∧
      ∃ ct, assocGet r "content_type" = some (.pstr ct) ∧
        (AioCrawler.html_content_types.contains ct) = false

/-- C5 counterexample: after `c5Ops`, the blob written for the PDF fetch of
`u` still exists, but `log_error_url` overwrote the sibling record with a
`type=error` record (no write path deletes the blob), so the claimed
invariant is false in a reachable state. -/
theorem c5_counterexample_stale_blob : ¬ ClaimedBlobInv (applyOps [] c5Ops) := by
  intro h
  obtain ⟨r, hr, htype, -⟩ := h "u" [37] (by decide)
  have hval : dbGet (applyOps [] c5Ops) "u" =
      some (.jsonBytes [("type", .pstr "error"), ("error_code", .pint 500),
        ("_content", .pstr "Server error at url: u")]) := by decide
  rw [hval] at hr
  have hreq : r = [("type", .pstr "error"), ("error_code", .pint 500),
      ("_content", .pstr "Server error at url: u")] := by
    injection hr with hw
    injection hw with hrr
    exact hrr.symm
  subst hreq
  exact absurd htype (by decide)

/-- C5 witness for the amended theorem, at the same reachable state. -/
theorem c5_blob_has_sibling_record_witness :
    dbGet (applyOps [] c5Ops) ("u" ++ _binary_suffix) = some (.rawBytes [37]) ∧
    ∃ r : Record, dbGet (applyOps [] c5Ops) "u" = some (.jsonBytes r) :=
  ⟨by decide, c5_blob_has_sibling_record c5Ops "u" [37] (by decide)⟩

/-- The `SiteCrawler` fields consulted by `is_cached_url` and `output`:
`cache_ttl_hours` and `start_time` (`time.time()` at construction). -/
structure CacheCfg where
  cache_ttl_hours : ℚ
  start_time : ℚ
  deriving Repr, DecidableEq

/-- `self.collection[url][field]` with Python's exceptions: `__getitem__` can
raise `KeyError`, subscripting bytes raises `TypeError`, and a missing dict
field raises `KeyError`. -/
def recordField (db : Db) (url field : String) : Except String PyVal :=
  match getItem url db with
  | .error e => .error e
  | .ok (.vdict r) =>
    match assocGet r field with
    | some v => .ok v
    | none => .error "KeyError"
  | .ok (.vbytes _) => .error "TypeError"

/-- `SiteCrawler.is_cached_url` (sitecrawler.py lines 307-313).  Note the TTL
applies exactly when `self.cache_ttl_hours > -1`; the expiry test compares
`(start_time - crawled) / 3600 >= cache_ttl_hours`. -/
def is_cached_url (c : CacheCfg) (db : Db) (url : String) : Except String Bool :=
  match (if containsKey url db then
      (recordField db url "type").map (fun t => t == PyVal.pstr "content")
    else .ok false) with
  | .error e => .error e
  | .ok is_cached =>
    if is_cached && decide (c.cache_ttl_hours > -1) then
      match recordField db url "crawled" with
      | .error e => .error e
      | .ok (.pfloat crawled) =>
        let is_cache_expired :=
          decide ((c.start_time - crawled) / 3600 ≥ c.cache_ttl_hours)
        .ok (!is_cache_expired)
      | .ok _ => .error "TypeError"
    else
      .ok is_cached

/-- Reduction of `is_cached_url` on a `content` record when the TTL is
enabled: it returns the negated expiry test. -/
theorem is_cached_url_content_ttl_red (c : CacheCfg) (db : Db) (url : String)
    (r : Record) (t : ℚ)
    (hget : dbGet db url = some (.jsonBytes r))
    (hsuf : pyEndsWith url _binary_suffix = false)
    (htype : assocGet r "type" = some (.pstr "content"))
    (hcrawled : assocGet r "crawled" = some (.pfloat t))
    (httl : c.cache_ttl_hours > -1) :
    is_cached_url c db url =
      .ok (!(decide ((c.start_time - t) / 3600 ≥ c.cache_ttl_hours))) := by
  simp [is_cached_url, containsKey, recordField, getItem, Except.map,
    hget, hsuf, htype, hcrawled, httl]

/-- C3 (amended): for a URL with a stored `content` record, `is_cached_url`
returns true iff the record's age `(start_time − crawled)/3600` is strictly
below the TTL **when `cache_ttl_hours > -1`**; the TTL is disabled (always a
hit) exactly when `cache_ttl_hours ≤ -1`, not for every negative value.  For
a URL with no record, or a record whose `type` is not `content`, it returns
false. -/
theorem c3_is_cached_url_ttl (c : CacheCfg) (db : Db) (url : String) :
    (∀ r : Record, dbGet db url = some (.jsonBytes r) →
      pyEndsWith url _binary_suffix = false →
      assocGet r "type" = some (.pstr "content") →
      ∀ t : ℚ, assocGet r "crawled" = some (.pfloat t) →
        (c.cache_ttl_hours > -1 →
          is_cached_url c db url =
            .ok (decide ((c.start_time - t) / 3600 < c.cache_ttl_hours))) ∧
        (c.cache_ttl_hours ≤ -1 → is_cached_url c db url = .ok true)) ∧
    (dbGet db url = none → is_cached_url c db url = .ok false) ∧
    (∀ r : Record, dbGet db url = some (.jsonBytes r) →
      pyEndsWith url _binary_suffix = false →
      ∀ tv : PyVal, assocGet r "type" = some tv → tv ≠ .pstr "content" →
      is_cached_url c db url = .ok false) := by
  refine ⟨?_, ?_, ?_⟩
  · intro r hget hsuf htype t hcrawled
    constructor
    · intro httl
      rw [is_cached_url_content_ttl_red c db url r t hget hsuf htype hcrawled httl]
      exact congrArg Except.ok (by rw [← decide_not]; exact decide_eq_decide.mpr not_le)
    · intro httl
      have hf : ¬ (c.cache_ttl_hours > -1) := not_lt.mpr httl
      simp [is_cached_url, containsKey, recordField, getItem, Except.map,
        hget, hsuf, htype, hf]
  · intro hnone
    simp [is_cached_url, containsKey, hnone]
  · intro r hget hsuf tv htype hne
    have hbe : (tv == PyVal.pstr "content") = false := by
      simp [hne]
    simp [is_cached_url, containsKey, recordField, getItem, Except.map,
      hget, hsuf, htype, hbe]

/-- The store and configuration of the C3 counterexample: a fresh `content`
record crawled at the crawl start and a fractional negative TTL. -/
def c3Db : Db :=
  [("u", .jsonBytes [("type", .pstr "content"), ("crawled", .pfloat 100)])]

def c3Cfg : CacheCfg := { cache_ttl_hours := -1/2, start_time := 100 }

/-- C3 counterexample: for `cache_ttl_hours = -1/2 < 0` the claim says the
TTL is disabled and `is_cached_url` always returns true for a stored
`content` record, but the code enables the TTL for every value `> -1` and
the age `0 ≥ -1/2` makes the cache expired, so it returns false. -/
theorem c3_counterexample_fractional_negative_ttl :
    dbGet c3Db "u" =
      some (.jsonBytes [("type", .pstr "content"), ("crawled", .pfloat 100)]) ∧
    c3Cfg.cache_ttl_hours < 0 ∧
    is_cached_url c3Cfg c3Db "u" = .ok false := by
  refine ⟨rfl, by norm_num [c3Cfg], ?_⟩
  rw [is_cached_url_content_ttl_red c3Cfg c3Db "u"
    [("type", .pstr "content"), ("crawled", .pfloat 100)] 100 rfl (by decide) rfl rfl
    (by norm_num [c3Cfg])]
  norm_num [c3Cfg]

/-- A TTL-enabled configuration for the C3 witness. -/
def c3CfgW : CacheCfg := { cache_ttl_hours := 0, start_time := 100 }

/-- C3 witness: the amended theorem applied at a concrete store with the TTL
enabled. -/
theorem c3_is_cached_url_ttl_witness :
    is_cached_url c3CfgW c3Db "u" =
      .ok (decide ((c3CfgW.start_time - 100) / 3600 < c3CfgW.cache_ttl_hours)) :=
  ((c3_is_cached_url_ttl c3CfgW c3Db "u").1
    [("type", .pstr "content"), ("crawled", .pfloat 100)]
    rfl (by decide) rfl 100 rfl).1 (by decide)

/-- The write `SiteCrawler.output` performs for a fetch result: `add_html`
for `text/html`, otherwise `add_binary`; handing a body of the wrong Python
type to either raises `TypeError` inside the `try`. -/
def outputWrite (now : ℚ) (slm : Option String) (content_type url : String)
    (content : AioCrawler.Body) (db : Db) : Except String Db :=
  if content_type == "text/html" then
    match content with
    | .bstr s => add_html url s (outputFields now slm) db
    | .bbytes _ => .error "TypeError"
  else
    match content with
    | .bbytes b => add_binary url b content_type (outputFields now slm) db
    | .bstr _ => .error "TypeError"

/-- `SiteCrawler.output` (sitecrawler.py lines 329-365).  The whole body runs
in a `try` whose handler prints and keeps going, so a raising step leaves the
store as it was; the `new_or_updated` counter is incremented before the
write, so it stays incremented when the write itself raises. -/
def output (c : CacheCfg) (now : ℚ) (content_type url : String)
    (links : List String) (content : AioCrawler.Body) (respLastModified : Option String)
    (db : Db) (new_or_updated : Nat) : Db × Nat :=
  match is_cached_url c db url with
  | .error _ => (db, new_or_updated)
  | .ok cached =>
    if !cached then
      let n := new_or_updated + 1
      match outputWrite now respLastModified content_type url content db with
      | .ok db2 => (db2, n)
      | .error _ => (db, n)
    else
      match getItem url db with
      | .error _ => (db, new_or_updated)
      | .ok (.vbytes _) => (db, new_or_updated)
      | .ok (.vdict r) =>
        if pyTruthy respLastModified then
          match assocGet r "server_last_modified" with
          | none => (db, new_or_updated)
          | some stored =>
            if stored ≠ pyOfOptStr respLastModified then
              let n := new_or_updated + 1
              match outputWrite now respLastModified content_type url content db with
              | .ok db2 => (db2, n)
              | .error _ => (db, n)
            else (db, new_or_updated)
        else (db, new_or_updated)

/-- C4 (amended): the guard of the overwrite branch is `is_cached_url`, not
bare record existence, and the comparison fires only when the server sent a
non-empty `Last-Modified`: (a) when `is_cached_url` is false (no record, a
non-`content` record, or an expired record) the result is always written and
`new_or_updated` incremented; (b) when it is true and the server sent a
truthy `Last-Modified` differing from the stored one, the record is
overwritten and the counter incremented; (c) when the server sent no (or an
empty) `Last-Modified` the record is left unchanged even if the stored value
differs; (d) when the sent value equals the stored one the record is left
unchanged. -/
theorem c4_output_overwrite_guard (c : CacheCfg) (now : ℚ) (ct url : String)
    (links : List String) (content : AioCrawler.Body) (slm : Option String)
    (db : Db) (n : Nat) :
    (is_cached_url c db url = .ok false →
      ∀ db2 : Db, outputWrite now slm ct url content db = .ok db2 →
        output c now ct url links content slm db n = (db2, n + 1)) ∧
    (is_cached_url c db url = .ok true →
      ∀ r : Record, getItem url db = .ok (.vdict r) →
        pyTruthy slm = true →
        ∀ stored : PyVal, assocGet r "server_last_modified" = some stored →
          stored ≠ pyOfOptStr slm →
          ∀ db2 : Db, outputWrite now slm ct url content db = .ok db2 →
            output c now ct url links content slm db n = (db2, n + 1)) ∧
    (is_cached_url c db url = .ok true →
      pyTruthy slm = false →
      output c now ct url links content slm db n = (db, n)) ∧
    (is_cached_url c db url = .ok true →
      ∀ r : Record, getItem url db = .ok (.vdict r) →
        pyTruthy slm = true →
        ∀ stored : PyVal, assocGet r "server_last_modified" = some stored →
          stored = pyOfOptStr slm →
          output c now ct url links content slm db n = (db, n)) := by
  refine ⟨?_, ?_, ?_, ?_⟩
  · intro hic db2 hw
    simp [output, hic, hw]
  · intro hic r hget htruthy stored hstored hne db2 hw
    simp [output, hic, hget, htruthy, hstored, hne, hw]
  · intro hic htruthy
    cases hget : getItem url db with
    | error e => simp [output, hic, hget]
    | ok v =>
      cases v with
      | vdict r => simp [output, hic, hget, htruthy]
      | vbytes b => simp [output, hic, hget]
  · intro hic r hget htruthy stored hstored heq
    simp [output, hic, hget, htruthy, hstored, heq]

/-- The store of the C4 counterexample: a fresh `content` record for `u`
whose stored `server_last_modified` is `"X"`. -/
def c4Db : Db :=
  [("u", .jsonBytes [("type", .pstr "content"), ("parsed_hash", .pstr ""),
    ("crawled", .pfloat 0), ("server_last_modified", .pstr "X"),
    ("_content", .pstr "<p>old</p>"), ("content_type", .pstr "text/html")])]

def c4Cfg : CacheCfg := { cache_ttl_hours := -1, start_time := 0 }

/-- C4 counterexample: a content record exists whose stored
`server_last_modified` (`"X"`) differs from the response's absent
`Last-Modified` header — the claim then requires an overwrite and an
increment — but the code's `if server_last_modified and ...` guard is falsy,
so the store and the counter are left unchanged. -/
theorem c4_counterexample_absent_header :
    recordField c4Db "u" "server_last_modified" = .ok (.pstr "X") ∧
    PyVal.pstr "X" ≠ pyOfOptStr none ∧
    output c4Cfg 5 "text/html" "u" [] (.bstr "<p>new</p>") none c4Db 0 = (c4Db, 0) := by
  refine ⟨by decide, by decide, by decide⟩

/-- C4 witness: the amended theorem's not-cached branch at a concrete input. -/
theorem c4_output_overwrite_guard_witness :
    is_cached_url c4Cfg ([] : Db) "u" = .ok false ∧
    output c4Cfg 5 "text/html" "u" [] (.bstr "<p>new</p>") (some "Y") [] 0 =
      (dbPut [] "u" (.jsonBytes (assocSet (assocSet (outputFields 5 (some "Y"))
        "_content" (.pstr "<p>new</p>")) "content_type" (.pstr "text/html"))), 0 + 1) :=
  ⟨by decide,
    (c4_output_overwrite_guard c4Cfg 5 "text/html" "u" [] (.bstr "<p>new</p>")
      (some "Y") [] 0).1 (by decide) _ (by decide)⟩

/-- An extraction rule (the pydantic `ExtractionRule` model, all optional
fields defaulting to `None`; the source's `attribute` field is spelt `attr`
here because `attribute` is reserved in Lean). -/
structure ExtractionRule where
  field_name : String
  css : Option String := none
  regex : Option String := none
  delimiter : Option String := none
  attr : Option String := none
  fixed_value : Option String := none
  default_value : Option String := none
  deriving Repr, DecidableEq

/-- The `ExtractionRules` model: an ordered rule list.  Its `compute_hash`
(an xxhash over the rules' JSON) is external and appears as the `rule_hash`
oracle of the extraction environment. -/
structure ExtractionRules where
  rules : List ExtractionRule
  deriving Repr, DecidableEq

/-- A DOM node as `do_extract` consumes it: the selectolax attribute dict
and the `text()` content.  `attributes a` is `none` when the attribute is
absent (subscripting raises `KeyError`), `some none` when it is present but
valueless (selectolax stores `None`, whose `.strip()` raises
`AttributeError`), and `some (some v)` when it carries the value `v`. -/
structure NodeV where
  attributes : String → Option (Option String)
  text : String

/-- A stored document as seen by `do_extract`: `cssMatch sel` is
`HTMLParser(dom_cleaner(content)).css(sel)` and `regexFind pat` is
`re.findall(pat, content)`, both external library calls on the same content
string. -/
structure Document where
  cssMatch : String → List NodeV
  regexFind : String → List String

/-- The characters Python `str.strip()` removes (CPython's
`Py_UNICODE_ISSPACE` table: ASCII whitespace, the C0/C1 separators and
next-line, and the Unicode space, line and paragraph separators). -/
def pyIsSpace (c : Char) : Bool :=
  c == ' ' || c == '\t' || c == '\n' || c == '\r' || c == '\x0B' || c == '\x0C' ||
  c == '\x1C' || c == '\x1D' || c == '\x1E' || c == '\x1F' || c == '\x85' ||
  c == '\xA0' || c == ' ' || c == ' ' || c == ' ' ||
  c == ' ' || c == ' ' || c == ' ' || c == ' ' ||
  c == ' ' || c == ' ' || c == ' ' || c == ' ' ||
  c == ' ' || c == ' ' || c == ' ' || c == ' ' ||
  c == ' ' || c == '　'

def pyStrip (s : String) : String :=
  ⟨((s.data.dropWhile pyIsSpace).reverse.dropWhile pyIsSpace).reverse⟩

/-- `_extract_content` (sitecrawler.py lines 375-379):
`node.attributes[rule.attribute].strip()` when the rule names an attribute —
raising `KeyError` when the matched node lacks it and `AttributeError` when
it is valueless — else `node.text().strip()`. -/
def _extract_content (node : NodeV) (rule : ExtractionRule) :
    Except String String :=
  if pyTruthy rule.attr then
    match node.attributes (rule.attr.getD "") with
    | none => .error "KeyError"
    | some none => .error "AttributeError"
    | some (some v) => .ok (pyStrip v)
  else
    .ok (pyStrip node.text)

/-- A value of the extraction result dict: a scalar string or a list. -/
inductive ExtractVal
  | vstr (s : String)
  | vlist (vs : List String)
  deriving Repr, DecidableEq

/-- The trailing `if r.field_name not in result: result[r.field_name] = ""`
of the `do_extract` loop body. -/
def fieldFallback (result : List (String × ExtractVal)) (r : ExtractionRule) :
    List (String × ExtractVal) :=
  if (assocGet result r.field_name).isSome then result
  else assocSet result r.field_name (.vstr "")

/-- The list comprehension `[_extract_content(n, r) for n in results]`:
evaluated left to right, the first raising node aborts the comprehension. -/
def extractAllE (r : ExtractionRule) : List NodeV → Except String (List String)
  | [] => .ok []
  | n :: ns =>
    match _extract_content n r with
    | .error e => .error e
    | .ok v =>
      match extractAllE r ns with
      | .error e => .error e
      | .ok vs => .ok (v :: vs)

/-- One iteration of the `do_extract` rule loop (sitecrawler.py lines
385-402): the css branch dispatches on the number of matched nodes (0 with a
truthy `default_value` → default, 1 → scalar, >1 → list), propagating any
exception `_extract_content` raises; the regex branch takes
`matches[0].strip()` whenever `re.findall` returned anything; then the
fixed-value branch; then the empty-string fallback. -/
def extractStep (doc : Document) (result : List (String × ExtractVal))
    (r : ExtractionRule) : Except String (List (String × ExtractVal)) :=
  let step : Except String (List (String × ExtractVal)) :=
    if pyTruthy r.css then
      let results := doc.cssMatch (r.css.getD "")
      match results with
      | [] =>
        .ok (if pyTruthy r.default_value then
          assocSet result r.field_name (.vstr (r.default_value.getD ""))
        else result)
      | [n] =>
        match _extract_content n r with
        | .error e => .error e
        | .ok v => .ok (assocSet result r.field_name (.vstr v))
      | n1 :: n2 :: ns =>
        match extractAllE r (n1 :: n2 :: ns) with
        | .error e => .error e
        | .ok vs => .ok (assocSet result r.field_name (.vlist vs))
    else if pyTruthy r.regex then
      .ok (match doc.regexFind (r.regex.getD "") with
        | [] => result
        | m :: _ => assocSet result r.field_name (.vstr (pyStrip m)))
    else if pyTruthy r.fixed_value then
      .ok (assocSet result r.field_name (.vstr (r.fixed_value.getD "")))
    else .ok result
  match step with
  | .error e => .error e
  | .ok result2 => .ok (fieldFallback result2 r)

def do_extract_fold (doc : Document) :
    List ExtractionRule → List (String × ExtractVal) →
    Except String (List (String × ExtractVal))
  | [], result => .ok result
  | r :: rest, result =>
    match extractStep doc result r with
    | .error e => .error e
    | .ok result2 => do_extract_fold doc rest result2

/-- `do_extract` (sitecrawler.py lines 382-403); an exception raised while
processing a rule propagates to the caller. -/
def do_extract (doc : Document) (rules : ExtractionRules) :
    Except String (List (String × ExtractVal)) :=
  do_extract_fold doc rules.rules []

/-- C7 (amended): applying one rule to a document produces, for a css rule:
the truthy `default_value` on zero matches (else the empty string); on one
match the scalar the node extraction returns — the `KeyError`/
`AttributeError` an attribute lookup may raise propagating instead — and on
two or more matches the list of extracted values, the first extraction error
likewise propagating; for a regex rule: the empty string on zero matches
(`default_value` is **not** consulted) and the first match, stripped, as a
scalar whenever there is at least one match — never a list. -/
theorem c7_rule_value (doc : Document) (r : ExtractionRule) :
    (pyTruthy r.css = true → doc.cssMatch (r.css.getD "") = [] →
      pyTruthy r.default_value = true →
      do_extract doc ⟨[r]⟩ = .ok [(r.field_name, .vstr (r.default_value.getD ""))]) ∧
    (pyTruthy r.css = true → doc.cssMatch (r.css.getD "") = [] →
      pyTruthy r.default_value = false →
      do_extract doc ⟨[r]⟩ = .ok [(r.field_name, .vstr "")]) ∧
    (∀ n : NodeV, ∀ v : String, pyTruthy r.css = true →
      doc.cssMatch (r.css.getD "") = [n] → _extract_content n r = .ok v →
      do_extract doc ⟨[r]⟩ = .ok [(r.field_name, .vstr v)]) ∧
    (∀ n : NodeV, ∀ e : String, pyTruthy r.css = true →
      doc.cssMatch (r.css.getD "") = [n] → _extract_content n r = .error e →
      do_extract doc ⟨[r]⟩ = .error e) ∧
    (∀ n1 n2 : NodeV, ∀ ns : List NodeV, ∀ vs : List String,
      pyTruthy r.css = true → doc.cssMatch (r.css.getD "") = n1 :: n2 :: ns →
      extractAllE r (n1 :: n2 :: ns) = .ok vs →
      do_extract doc ⟨[r]⟩ = .ok [(r.field_name, .vlist vs)]) ∧
    (∀ n1 n2 : NodeV, ∀ ns : List NodeV, ∀ e : String,
      pyTruthy r.css = true → doc.cssMatch (r.css.getD "") = n1 :: n2 :: ns →
      extractAllE r (n1 :: n2 :: ns) = .error e →
      do_extract doc ⟨[r]⟩ = .error e) ∧
    (pyTruthy r.css = false → pyTruthy r.regex = true →
      doc.regexFind (r.regex.getD "") = [] →
      do_extract doc ⟨[r]⟩ = .ok [(r.field_name, .vstr "")]) ∧
    (∀ m : String, ∀ ms : List String, pyTruthy r.css = false →
      pyTruthy r.regex = true → doc.regexFind (r.regex.getD "") = m :: ms →
      do_extract doc ⟨[r]⟩ = .ok [(r.field_name, .vstr (pyStrip m))]) := by
  refine ⟨?_, ?_, ?_, ?_, ?_, ?_, ?_, ?_⟩
  · intro hcss hmatch hdef
    simp [do_extract, do_extract_fold, extractStep, fieldFallback,
      assocGet, assocSet, hcss, hmatch, hdef]
  · intro hcss hmatch hdef
    simp [do_extract, do_extract_fold, extractStep, fieldFallback,
      assocGet, assocSet, hcss, hmatch, hdef]
  · intro n v hcss hmatch hext
    simp [do_extract, do_extract_fold, extractStep, fieldFallback,
      assocGet, assocSet, hcss, hmatch, hext]
  · intro n e hcss hmatch hext
    simp [do_extract, do_extract_fold, extractStep, fieldFallback,
      assocGet, assocSet, hcss, hmatch, hext]
  · intro n1 n2 ns vs hcss hmatch hext
    simp [do_extract, do_extract_fold, extractStep, fieldFallback,
      assocGet, assocSet, hcss, hmatch, hext]
  · intro n1 n2 ns e hcss hmatch hext
    simp [do_extract, do_extract_fold, extractStep, fieldFallback,
      assocGet, assocSet, hcss, hmatch, hext]
  · intro hcss hregex hmatch
    simp [do_extract, do_extract_fold, extractStep, fieldFallback,
      assocGet, assocSet, hcss, hregex, hmatch]
  · intro m ms hcss hregex hmatch
    simp [do_extract, do_extract_fold, extractStep, fieldFallback,
      assocGet, assocSet, hcss, hregex, hmatch]

/-- The document `<animal>cat</animal><animal>dog</animal>`: `re.findall`
with the pattern `<animal>(.*?)</animal>` yields both captures. -/
def c7Doc : Document :=
  { cssMatch := fun _ => [],
    regexFind := fun p =>
      if p = "<animal>(.*?)</animal>" then ["cat", "dog"] else [] }

def c7Rule : ExtractionRule :=
  { field_name := "animal", regex := some "<animal>(.*?)</animal>" }

/-- C7 counterexample: a regex rule with two matches produces the scalar
first match `"cat"`, not the list `["cat", "dog"]` the claim requires for
two or more matches. -/
theorem c7_counterexample_regex_two_matches :
    (c7Doc.regexFind (c7Rule.regex.getD "")).length = 2 ∧
    do_extract c7Doc ⟨[c7Rule]⟩ = .ok [("animal", .vstr "cat")] ∧
    do_extract c7Doc ⟨[c7Rule]⟩ ≠ .ok [("animal", .vlist ["cat", "dog"])] := by
  refine ⟨rfl, by decide, by decide⟩

def c7NodeW : NodeV := { attributes := fun _ => none, text := " foo " }

def c7DocW : Document :=
  { cssMatch := fun sel => if sel = "title" then [c7NodeW] else [],
    regexFind := fun _ => [] }

def c7RuleW : ExtractionRule := { field_name := "title", css := some "title" }

/-- C7 witness: the single-match css conjunct of the amended theorem at a
concrete document. -/
theorem c7_rule_value_witness :
    pyTruthy c7RuleW.css = true ∧
    _extract_content c7NodeW c7RuleW = .ok "foo" ∧
    do_extract c7DocW ⟨[c7RuleW]⟩ = .ok [("title", .vstr "foo")] :=
  ⟨rfl, rfl, (c7_rule_value c7DocW c7RuleW).2.2.1 c7NodeW "foo" rfl rfl rfl⟩

/-- The result of `tldextract.extract` (external library). -/
structure TldParts where
  subdomain : String
  domain : String
  suffix : String

/-- `SiteCrawler.parse_tld` (sitecrawler.py lines 259-262), over the
`tldextract` oracle. -/
def parse_tld (tldextract : String → TldParts) (url : String) : String × String :=
  let p := tldextract url
  let tld := p.domain ++ "." ++ p.suffix
  (p.subdomain ++ "." ++ tld, tld)

/-- The scope configuration consulted by `valid_link`: `allowed_domains`
(seeded from the starting URLs), `allowed_regex`, `denied_regex` (the user
list already unioned with the global excludes) and `denied_extensions`. -/
structure ScopeCfg where
  allowed_domains : List String
  allowed_regex : List String
  denied_regex : List String
  denied_extensions : List String

/-- `SiteCrawler.valid_link` (sitecrawler.py lines 264-305): the domain
gate, the `"@"` gate, the allow-regex short-circuit, the deny-regex and
deny-extension gates, then accept.  `reFindall pat s` is the truthiness of
`re.findall(pat, s, re.IGNORECASE)`. -/
def valid_link (tldextract : String → TldParts) (reFindall : String → String → Bool)
    (c : ScopeCfg) (source_url : String) (link : String) : Bool :=
  let st := parse_tld tldextract link
  let subdomain := st.1
  let tld := st.2
  if ¬ (c.allowed_domains.contains subdomain) ∧ ¬ (c.allowed_domains.contains tld) then
    false
  else if link.data.contains '@' then
    false
  else
    let included := c.allowed_regex.any (fun s => reFindall s link)
    if included then true
    else
      let excluded := c.denied_regex.any (fun s => reFindall s link)
      if excluded then false
      else
        let excluded2 := c.denied_extensions.any (fun s => pyEndsWith link s)
        if excluded2 then false
        else true

/-- C9: the scope filter never consults its `source_url` argument: for every
candidate link, every configuration and every pair of source pages the
verdict is identical, so scope is a function of the link and the crawler
configuration alone. -/
theorem c9_valid_link_source_independent (tldextract : String → TldParts)
    (reFindall : String → String → Bool) (c : ScopeCfg)
    (s1 s2 link : String) :
    valid_link tldextract reFindall c s1 link =
      valid_link tldextract reFindall c s2 link := rfl

/-- The result of `urllib.parse.urlparse` as consumed by `get_path` and
`get_type_from_url`. -/
structure UrlParsed where
  path : String
  netloc : String

/-- Python `s.strip(c)` for a single strip character. -/
def pyStripChars (s : String) (c : Char) : String :=
  ⟨((s.data.dropWhile (· == c)).reverse.dropWhile (· == c)).reverse⟩

/-- Python `str.title()`: the first letter of each run of letters is
uppercased, the rest lowercased (ASCII letters suffice for these URLs). -/
def pyTitleGo : Bool → List Char → List Char
  | _, [] => []
  | prevAlpha, ch :: cs =>
    let ch2 := if ch.isAlpha then (if prevAlpha then ch.toLower else ch.toUpper) else ch
    ch2 :: pyTitleGo ch.isAlpha cs

def pyTitle (s : String) : String := ⟨pyTitleGo false s.data⟩

/-- `get_path` (sitecrawler.py lines 514-519). -/
def get_path (urlparse : String → UrlParsed) (url_string : String) : String :=
  let u := urlparse url_string
  let path_str := (pyStripChars u.path '/').replace "/" " / "
  if path_str = "" then u.netloc else path_str

/-- `get_type_from_url` (sitecrawler.py lines 521-530). -/
def get_type_from_url (urlparse : String → UrlParsed) (url_string : String) : String :=
  let u := urlparse url_string
  let pagetype := pyTitle (((pyStripChars u.path '/').splitOn "/").headD "")
  let pagetype :=
    if pagetype.data.contains '-' then
      pyTitle (String.intercalate " " (pagetype.splitOn "-"))
    else pagetype
  let pagetype :=
    if pagetype.data.contains '_' then
      pyTitle (String.intercalate " " (pagetype.splitOn "_"))
    else pagetype
  if pagetype = "" then "Web Page" else pagetype

/-- A result-dict value lifted into the stored record. -/
def pyOfExtract : ExtractVal → PyVal
  | .vstr s => .pstr s
  | .vlist vs => .plist vs

/-- The external services and library functions `do_extraction` calls:
document parsing for `do_extract`, `urlparse`, `uuid.uuid3`, the rule-set
xxhash, `os.path.basename`, the unstructured binary-text service (its reply
on HTTP 200) and the zyte article API (its reply per URL, `none` when the
request errors and the item is dropped). -/
structure ExtractEnv where
  docOf : String → Document
  urlparse : String → UrlParsed
  uuid3 : String → String
  rule_hash : List ExtractionRule → Int
  basename : String → String
  unstructuredResp : String → List Nat → Option (String × String)
  aiParse : String → Option Record

/-- `create_id` (sitecrawler.py lines 511-512). -/
def create_id (env : ExtractEnv) (url_string : String) : String :=
  env.uuid3 url_string

/-- The calls `do_extraction` makes to external services. -/
inductive ExtCall
  | unstructuredCall (filename : String) (payload : List Nat)
  | aiBatchCall (urls : List String)
  deriving Repr, DecidableEq

/-- The crawler state `do_extraction` reads: the collection, the rule set
(`None` possible) and the `ai_parsing` attribute, which `__init__` only sets
when it was passed as true (`none` models the unset attribute, whose access
raises `AttributeError`). -/
structure Crawler where
  collection : Db
  extraction_rules : Option ExtractionRules
  ai_parsing : Option Bool

/-- One iteration of the `for k, v in crawler.collection.items()` loop of
`do_extraction` (sitecrawler.py lines 461-490): skip blob keys; on a stale
`content` record run `do_extract`, derive `uri`/`path_s`/`typeUrl_s`/`id`,
batch the URL for AI parsing when the record is HTML and `ai_parsing` is
truthy, run the unstructured extractor on the blob when it is not HTML,
merge the result dict into the record, stamp `parsed_hash` and write it
back.  Python exceptions surface as `.error`. -/
def extraction_item_step (env : ExtractEnv) (er : ExtractionRules) (ph : Int)
    (ai : Option Bool) (st : Db × List ExtCall × List String) (kv : String × Wire) :
    Except String (Db × List ExtCall × List String) :=
  let db := st.1
  let calls := st.2.1
  let aiReqs := st.2.2
  let k := kv.1
  if is_binary_key k then .ok (db, calls, aiReqs)
  else
    match kv.2 with
    | .rawBytes _ => .error "JSONDecodeError"
    | .jsonBytes v =>
      match assocGet v "type" with
      | none => .error "KeyError"
      | some tv =>
        if tv == .pstr "content" then
          match assocGet v "parsed_hash" with
          | none => .error "KeyError"
          | some phv =>
            if phv ≠ .pint ph then
              match assocGet v "_content" with
              | none => .error "KeyError"
              | some (.pstr contentStr) =>
                match do_extract (env.docOf contentStr) er with
                | .error e => .error e
                | .ok extracted =>
                  let result0 := extracted.map (fun p => (p.1, pyOfExtract p.2))
                  let result1 := assocSet result0 "uri" (.pstr k)
                  let result2 := assocSet result1 "path_s"
                    (.pstr (get_path env.urlparse k))
                  let result3 := assocSet result2 "typeUrl_s"
                    (.pstr (get_type_from_url env.urlparse k))
                  let result4 := assocSet result3 "id" (.pstr (create_id env k))
                  match assocGet v "content_type" with
                  | none => .error "KeyError"
                  | some ctv =>
                    let aiStep : Except String (List String) :=
                      if ctv == .pstr "text/html" then
                        match ai with
                        | none => .error "AttributeError"
                        | some b => .ok (if b then aiReqs ++ [k] else aiReqs)
                      else .ok aiReqs
                    match aiStep with
                    | .error e => .error e
                    | .ok aiReqs2 =>
                      let binStep : Except String (Record × List ExtCall) :=
                        if ctv != .pstr "text/html" then
                          match get_binary k db with
                          | .error e => .error e
                          | .ok (.vdict _) => .error "TypeError"
                          | .ok (.vbytes payload) =>
                            let filename := env.basename k
                            let call := ExtCall.unstructuredCall filename payload
                            match env.unstructuredResp filename payload with
                            | some pair =>
                              .ok (assocSet (assocSet result4 "content"
                                (.pstr pair.1)) "title" (.pstr pair.2),
                                calls ++ [call])
                            | none => .ok (result4, calls ++ [call])
                        else .ok (result4, calls)
                      match binStep with
                      | .error e => .error e
                      | .ok pr =>
                        let v2 := pr.1.foldl (fun acc p => assocSet acc p.1 p.2) v
                        let v3 := assocSet v2 "parsed_hash" (.pint ph)
                        match setItem k (.vdict v3) db with
                        | .error e => .error e
                        | .ok db2 => .ok (db2, pr.2, aiReqs2)
              | some _ => .error "TypeError"
            else .ok (db, calls, aiReqs)
        else .ok (db, calls, aiReqs)

def extraction_fold (env : ExtractEnv) (er : ExtractionRules) (ph : Int)
    (ai : Option Bool) : List (String × Wire) → Db × List ExtCall × List String →
    Except String (Db × List ExtCall × List String)
  | [], st => .ok st
  | kv :: rest, st =>
    match extraction_item_step env er ph ai st kv with
    | .error e => .error e
    | .ok st2 => extraction_fold env er ph ai rest st2

/-- The merge loop over the AI results (sitecrawler.py lines 495-500):
`key = result['uri']`, `val = crawler.collection[key]`, `val.update(result)`,
write back. -/
def merge_ai_results : List Record → Db → Except String Db
  | [], db => .ok db
  | flds :: rest, db =>
    match assocGet flds "uri" with
    | none => .error "KeyError"
    | some (.pstr key) =>
      match getItem key db with
      | .error e => .error e
      | .ok (.vbytes _) => .error "AttributeError"
      | .ok (.vdict val) =>
        let val2 := flds.foldl (fun acc p => assocSet acc p.1 p.2) val
        match setItem key (.vdict val2) db with
        | .error e => .error e
        | .ok db2 => merge_ai_results rest db2
    | some _ => .error "TypeError"

/-- `do_extraction` (sitecrawler.py lines 454-500).  Returns the collection
after the pass together with the log of external-service calls; Python
exceptions surface as `.error`.  The items loop iterates the snapshot of the
collection taken at entry. -/
def do_extraction (env : ExtractEnv) (c : Crawler) : Except String (Db × List ExtCall) :=
  match c.extraction_rules with
  | none => .ok (c.collection, [])
  | some er =>
    if er.rules.length == 0 then .ok (c.collection, [])
    else
      let ph := env.rule_hash er.rules
      match extraction_fold env er ph c.ai_parsing c.collection (c.collection, [], []) with
      | .error e => .error e
      | .ok st =>
        match c.ai_parsing with
        | none => .error "AttributeError"
        | some b =>
          if b && decide (st.2.2.length > 0) then
            let results := st.2.2.filterMap env.aiParse
            match merge_ai_results results st.1 with
            | .error e => .error e
            | .ok db2 => .ok (db2, st.2.1 ++ [ExtCall.aiBatchCall st.2.2])
          else .ok (st.1, st.2.1)

/-- C10: when the extraction rule list is absent or empty, `do_extraction`
returns before touching anything: the collection is unchanged, no record is
written, and no external extractor or article-parser call is made. -/
theorem c10_empty_rules_no_effect (env : ExtractEnv) (c : Crawler)
    (h : c.extraction_rules = none ∨
      ∃ er : ExtractionRules, c.extraction_rules = some er ∧ er.rules = []) :
    do_extraction env c = .ok (c.collection, []) := by
  rcases h with h | ⟨er, h, hr⟩
  · simp [do_extraction, h]
  · simp [do_extraction, h, hr]

/-- A concrete crawler (non-empty collection, empty rule list, `ai_parsing`
attribute unset) and a concrete environment for the C10 witness. -/
def c10Env : ExtractEnv :=
  { docOf := fun _ => { cssMatch := fun _ => [], regexFind := fun _ => [] },
    urlparse := fun _ => { path := "", netloc := "" },
    uuid3 := fun _ => "",
    rule_hash := fun _ => 0,
    basename := fun _ => "",
    unstructuredResp := fun _ _ => none,
    aiParse := fun _ => none }

def c10Crawler : Crawler :=
  { collection := [("u", .jsonBytes [("type", .pstr "content"),
      ("parsed_hash", .pstr ""), ("_content", .pstr "<p>hi</p>"),
      ("content_type", .pstr "text/html")])],
    extraction_rules := some ⟨[]⟩,
    ai_parsing := none }

theorem c10_empty_rules_no_effect_witness :
    (c10Crawler.extraction_rules = none ∨
      ∃ er : ExtractionRules, c10Crawler.extraction_rules = some er ∧ er.rules = []) ∧
    do_extraction c10Env c10Crawler = .ok (c10Crawler.collection, []) :=
  ⟨Or.inr ⟨⟨[]⟩, rfl, rfl⟩,
    c10_empty_rules_no_effect c10Env c10Crawler (Or.inr ⟨⟨[]⟩, rfl, rfl⟩)⟩

end SC
